import Mathlib

/-!
# Verification of the mini-AlphaStar learner process

Shallow embedding of `alphastarmini/core/rl/learner_process.py` (class
`LearnerProcess`): the trajectory pools, the two sampling strategies
(`get_normal_trajectories`, `get_mixed_trajectories`), the parameter-update
step counter arithmetic (`update_parameters`) and the background run loop
(`run`).

Modelling conventions:
* Trajectories are opaque values of a type `α`; the three shared pools are
  Lean lists (the Python code manipulates them purely through slicing,
  `len`, `extend` and in-place `random.shuffle`).
* `random.shuffle` is modelled by an oracle function `List α → List α`
  supplied as a parameter; theorems that need it assume the oracle preserves
  length (every permutation does).
* Python `assert` is modelled with `Except`: `Except.error` carries the pool
  state at the moment the assertion fires (the code mutates the pool fields
  in textual order, so the error state records exactly the mutations that
  precede the failing assert).
* `int(sample_size * 0.1)` and `int(sample_size * 0.2)` (float multiply then
  truncation) are modelled as `sample_size * 1 / 10` and `sample_size * 2 / 10`
  in exact natural arithmetic.  Both expressions feed only into
  `min(1, ·)`, and the float product `s * 0.1` (resp. `s * 0.2`) is `≥ 1`
  exactly when `s ≥ 10` (resp. `s ≥ 5`), the same as the exact quotient, so
  the modelled `min` agrees with the Python value for every natural
  `sample_size`; at the concrete sizes evaluated below (10) the truncated
  values themselves also coincide.
-/

namespace LearnerProcess

/-- The three shared trajectory pools of a `LearnerProcess`:
`self.trajectories` (ordinary), `self.final_trajectories`,
`self.win_trajectories`. -/
structure LearnerPools (α : Type) where
  trajectories : List α
  final_trajectories : List α
  win_trajectories : List α
  deriving Repr, DecidableEq

/-- `sample_win = min(1, int(sample_size * split_ratio[2]))` with
`split_ratio[2] = 0.1` (learner_process.py line 139). -/
def sample_win (sample_size : Nat) : Nat :=
  min 1 (sample_size * 1 / 10)

/-- `sample_final = min(1, int(sample_size * split_ratio[1]))` with
`split_ratio[1] = 0.2` (learner_process.py line 138). -/
def sample_final (sample_size : Nat) : Nat :=
  min 1 (sample_size * 2 / 10)

/-- Second reading of the final-pool quota, taken verbatim from the spec's
words: "a `final` sub-sample of size `max(1, floor(sample_size × 0.2))`".
Declared only to be compared with the source's `sample_final`. -/
def spec_final_quota (sample_size : Nat) : Nat :=
  max 1 (sample_size * 2 / 10)

/-- Second reading of the win-pool quota, taken verbatim from the spec's
words: "a `win` sub-sample of size `max(1, floor(sample_size × 0.1))`".
Declared only to be compared with the source's `sample_win`. -/
def spec_win_quota (sample_size : Nat) : Nat :=
  max 1 (sample_size * 1 / 10)

/-- `get_normal_trajectories` (learner_process.py lines 115-131), acting on
the ordinary pool.  `sample_size = self.count_of_batches * batch_size` is
passed in.  The slice `self.trajectories[:sample_size]` is `List.take`; the
`assert len(trajectories) == sample_size` is the `if`; the pool update
`self.trajectories = self.trajectories[sample_size:]` is guarded by
`len(self.trajectories) > 0` exactly as in the source, and happens only
after the assert, so on assertion failure the error carries the untouched
pool. -/
def get_normal_trajectories (sample_size : Nat) (pool : List α) :
    Except (List α) (List α × List α) :=
  let trajectories := pool.take sample_size
  if trajectories.length = sample_size then
    .ok (trajectories, if 0 < pool.length then pool.drop sample_size else pool)
  else
    .error pool

/-- `get_mixed_trajectories` (learner_process.py lines 133-184).
`shuffle_win`, `shuffle_final`, `shuffle_normal` stand for the three
`random.shuffle` calls (in-place, so every later use of a pool in the
source sees the shuffled list).  Block by block:
* win block (lines 148-158): if the win pool is non-empty, shuffle it,
  take the first `sample_win` elements into the batch, shrink the
  remaining budget by the number actually taken, and drop the taken head
  from the pool only when the (shuffled) pool holds more than 128 elements;
* final block (lines 160-170): the same with quota `sample_final` and
  threshold 64;
* ordinary block (lines 172-184): optionally shuffle, take the residual
  budget from the head, assert the composed batch has exactly
  `sample_size` elements, and only then trim the ordinary pool (guarded by
  `len > 0`).  The win/final pool updates textually precede the assert, so
  the error state keeps them.
All the subtractions in the source act on values where the subtrahend never
exceeds the minuend (each quota is at most 1, and a quota is nonzero only
when `sample_size` is at least 10, resp. 5), so `Nat` subtraction is
exact here. -/
def get_mixed_trajectories (sample_size : Nat)
    (shuffle_win shuffle_final shuffle_normal : List α → List α)
    (use_random_sample : Bool) (s : LearnerPools α) :
    Except (LearnerPools α) (List α × LearnerPools α) :=
  let win_pool :=
    if 0 < s.win_trajectories.length then shuffle_win s.win_trajectories
    else s.win_trajectories
  let trajectories_win :=
    if 0 < s.win_trajectories.length then win_pool.take (sample_win sample_size)
    else []
  let reduce_sample_size := sample_size - trajectories_win.length
  let new_win :=
    if 0 < s.win_trajectories.length then
      if 128 < win_pool.length then win_pool.drop (sample_win sample_size)
      else win_pool
    else s.win_trajectories
  let final_pool :=
    if 0 < s.final_trajectories.length then shuffle_final s.final_trajectories
    else s.final_trajectories
  let trajectories_final :=
    if 0 < s.final_trajectories.length then final_pool.take (sample_final sample_size)
    else []
  let reduce_sample_size2 := reduce_sample_size - trajectories_final.length
  let new_final :=
    if 0 < s.final_trajectories.length then
      if 64 < final_pool.length then final_pool.drop (sample_final sample_size)
      else final_pool
    else s.final_trajectories
  let normal_pool :=
    if use_random_sample then shuffle_normal s.trajectories else s.trajectories
  let trajectories :=
    trajectories_win ++ trajectories_final ++ normal_pool.take reduce_sample_size2
  if trajectories.length = sample_size then
    .ok (trajectories,
      { trajectories :=
          if 0 < normal_pool.length then normal_pool.drop reduce_sample_size2
          else normal_pool,
        final_trajectories := new_final,
        win_trajectories := new_win })
  else
    .error
      { trajectories := normal_pool,
        final_trajectories := new_final,
        win_trajectories := new_win }

/-- The residual budget drawn from the ordinary pool by
`get_mixed_trajectories`: `sample_size` minus the number of win and final
trajectories actually taken (the `reduce_sample_size` variable right before
line 174, expressed through pool lengths). -/
def residualQuota (sample_size winLen finLen : Nat) : Nat :=
  sample_size
    - (if 0 < winLen then min (sample_win sample_size) winLen else 0)
    - (if 0 < finLen then min (sample_final sample_size) finLen else 0)

/-- The pool state a `get_mixed_trajectories`/`get_normal_trajectories` call
leaves behind, whether the length assertion passed or fired. -/
def resultPools : Except (LearnerPools α) (List α × LearnerPools α) → LearnerPools α
  | .ok (_, s) => s
  | .error s => s

/-- The length of the returned batch: `some` of it on success, `none` when
the assertion fired. -/
def resultBatchLength : Except (LearnerPools α) (List α × LearnerPools α) → Option Nat
  | .ok (batch, _) => some batch.length
  | .error _ => none

/-- The step counter after the nested loops of `update_parameters`
(learner_process.py lines 202-223): for each of `num_epochs` epochs and
each of `count_of_batches` mini-batches, the body executes
`agent.steps += AHP.batch_size * AHP.sequence_length` (line 223)
unconditionally. -/
def update_steps (num_epochs count_of_batches batch_size sequence_length
    steps : Nat) : Nat :=
  (List.range num_epochs).foldl
    (fun epoch_steps _ =>
      (List.range count_of_batches).foldl
        (fun batch_steps _ => batch_steps + batch_size * sequence_length)
        epoch_steps)
    steps

/-- The learner-side state touched by `update_parameters`: the three pools,
the monotone step counter `agent.steps`, and whether a model checkpoint has
been written (`torch.save` at line 228). -/
structure LearnerState (α : Type) where
  pools : LearnerPools α
  steps : Nat
  checkpoint_saved : Bool
  deriving Repr, DecidableEq

/-- `update_parameters` (learner_process.py lines 186-231), restricted to
the state it mutates.  If `self.is_rl_training` is false it returns at once
(line 187-188) touching nothing.  Otherwise it draws a batch with
`get_normal_trajectories` (line 195, the mixed call at line 194 is commented
out) with `sample_size = self.count_of_batches * batch_size`; an assertion
failure inside propagates uncaught with the pools as the failed call left
them.  On success the nested loops advance the step counter as in
`update_steps`, and `torch.save` writes a checkpoint. -/
def update_parameters (is_rl_training : Bool)
    (num_epochs count_of_batches batch_size sequence_length : Nat)
    (s : LearnerState α) : Except (LearnerState α) (LearnerState α) :=
  if is_rl_training = false then .ok s
  else
    match get_normal_trajectories (count_of_batches * batch_size)
        s.pools.trajectories with
    | .error pool =>
        .error { s with pools := { s.pools with trajectories := pool } }
    | .ok (_, new_pool) =>
        .ok { pools := { s.pools with trajectories := new_pool },
              steps := update_steps num_epochs count_of_batches batch_size
                sequence_length s.steps,
              checkpoint_saved := true }

/-- What one body of the `while` loop in `run` (learner_process.py lines
243-253) does: either it completes (`ok`, covering both the branch that
calls `update_parameters` and the branch that just sleeps) or it raises
(`exn`, e.g. an exception propagated out of `update_parameters`). -/
inductive IterOutcome where
  | ok : IterOutcome
  | exn : IterOutcome
  deriving Repr, DecidableEq

/-- Observable outcome of a full `run` call: how many loop iterations
executed, and the final value of `self.is_running`. -/
structure RunResult where
  iterations_run : Nat
  is_running : Bool
  deriving Repr, DecidableEq

/-- The `while time() - start_time < self.max_time_for_training` loop of
`run` (lines 242-258).  Real time is abstracted into `fuel`: the number of
times the time check still succeeds.  `k` is the index of the next
iteration; `outcome k` says whether iteration `k`'s body completes or
raises.  The body's `try/except` catches any exception and executes
`break` (lines 255-258), so a raising iteration is counted and then the
loop stops.  Returns the number of iterations executed. -/
def run_iters (outcome : Nat → IterOutcome) : Nat → Nat → Nat
  | _, 0 => 0
  | k, fuel + 1 =>
    match outcome k with
    | .ok => 1 + run_iters outcome (k + 1) fuel
    | .exn => 1

/-- `run` (learner_process.py lines 237-264): sets `self.is_running = True`
(line 240), executes the while loop, and the `finally` block (lines
263-264) sets `self.is_running = False` on every exit path — normal
time-to-live expiry, `break` after a caught exception, or an exception
escaping to the outer handler. -/
def run (fuel : Nat) (outcome : Nat → IterOutcome) : RunResult :=
  let started : RunResult := { iterations_run := 0, is_running := true }
  let finished : RunResult :=
    { started with iterations_run := run_iters outcome 0 fuel }
  { finished with is_running := false }

/-- The batch a `get_normal_trajectories` call returns (empty when the
length assertion fired and nothing was returned). -/
def resultNormalBatch : Except (List α) (List α × List α) → List α
  | .ok (batch, _) => batch
  | .error _ => []

/-- The ordinary pool a `get_normal_trajectories` call leaves behind,
whether the length assertion passed or fired. -/
def resultNormalPool : Except (List α) (List α × List α) → List α
  | .ok (_, pool) => pool
  | .error pool => pool

/-- The batch a `get_mixed_trajectories` call returns (empty when the
length assertion fired and nothing was returned). -/
def resultBatch : Except (LearnerPools α) (List α × LearnerPools α) → List α
  | .ok (batch, _) => batch
  | .error _ => []

/-- The step counter after the first `m` mini-batch bodies of the nested
loops of `update_parameters` have executed (each body runs
`agent.steps += AHP.batch_size * AHP.sequence_length`, line 223). -/
def steps_after (batch_size sequence_length steps m : Nat) : Nat :=
  (List.range m).foldl (fun st _ => st + batch_size * sequence_length) steps

/-- The win pool left behind by the win block of `get_mixed_trajectories`
(lines 148-158): untouched when empty, otherwise the shuffled pool, with
its head quota dropped when it holds more than 128 elements. -/
def mixed_new_win (sample_size : Nat) (shuffle_win : List α → List α)
    (s : LearnerPools α) : List α :=
  if 0 < s.win_trajectories.length then
    if 128 < (shuffle_win s.win_trajectories).length then
      (shuffle_win s.win_trajectories).drop (sample_win sample_size)
    else shuffle_win s.win_trajectories
  else s.win_trajectories

/-- The final pool left behind by the final block of
`get_mixed_trajectories` (lines 160-170): threshold 64, quota
`sample_final`. -/
def mixed_new_final (sample_size : Nat) (shuffle_final : List α → List α)
    (s : LearnerPools α) : List α :=
  if 0 < s.final_trajectories.length then
    if 64 < (shuffle_final s.final_trajectories).length then
      (shuffle_final s.final_trajectories).drop (sample_final sample_size)
    else shuffle_final s.final_trajectories
  else s.final_trajectories

/-- The batch `get_mixed_trajectories` composes, with the residual budget
expressed through `residualQuota` (equal to the code's running
`reduce_sample_size` once the shuffles are known to preserve length). -/
def mixed_batch (sample_size : Nat)
    (shuffle_win shuffle_final shuffle_normal : List α → List α)
    (use_random_sample : Bool) (s : LearnerPools α) : List α :=
  (if 0 < s.win_trajectories.length then
      (shuffle_win s.win_trajectories).take (sample_win sample_size)
    else [])
    ++ (if 0 < s.final_trajectories.length then
          (shuffle_final s.final_trajectories).take (sample_final sample_size)
        else [])
    ++ (if use_random_sample then shuffle_normal s.trajectories
        else s.trajectories).take
        (residualQuota sample_size s.win_trajectories.length
          s.final_trajectories.length)

/-! ## Helper lemmas -/

theorem get_normal_ok (sample_size : Nat) (pool : List α)
    (h : sample_size ≤ pool.length) :
    get_normal_trajectories sample_size pool =
      .ok (pool.take sample_size, pool.drop sample_size) := by
  simp only [get_normal_trajectories]
  rw [if_pos (by simp [List.length_take]; omega)]
  rcases pool with _ | ⟨a, l⟩
  · simp
  · simp

theorem get_normal_err (sample_size : Nat) (pool : List α)
    (h : pool.length < sample_size) :
    get_normal_trajectories sample_size pool = .error pool := by
  simp only [get_normal_trajectories]
  rw [if_neg (by simp [List.length_take]; omega)]

/-- Bounds used by the arithmetic below: each quota is at most 1, and a
nonzero quota forces `sample_size` to be at least 10 (win) resp. 5
(final). -/
theorem sample_win_cases (sample_size : Nat) :
    sample_win sample_size = 0 ∨
      (sample_win sample_size = 1 ∧ 10 ≤ sample_size) := by
  simp only [sample_win]
  omega

theorem sample_final_cases (sample_size : Nat) :
    sample_final sample_size = 0 ∨
      (sample_final sample_size = 1 ∧ 5 ≤ sample_size) := by
  simp only [sample_final]
  omega

/-- When the ordinary pool can cover the residual budget,
`get_mixed_trajectories` passes its assertion and its result is described
by `mixed_batch`, `mixed_new_final`, `mixed_new_win` and `residualQuota`. -/
theorem get_mixed_ok (sample_size : Nat)
    (sW sF sN : List α → List α) (ur : Bool) (s : LearnerPools α)
    (hW : ∀ l, (sW l).length = l.length)
    (hF : ∀ l, (sF l).length = l.length)
    (hN : ∀ l, (sN l).length = l.length)
    (h : residualQuota sample_size s.win_trajectories.length
        s.final_trajectories.length ≤ s.trajectories.length) :
    get_mixed_trajectories sample_size sW sF sN ur s =
      .ok (mixed_batch sample_size sW sF sN ur s,
        { trajectories :=
            (if ur then sN s.trajectories else s.trajectories).drop
              (residualQuota sample_size s.win_trajectories.length
                s.final_trajectories.length),
          final_trajectories := mixed_new_final sample_size sF s,
          win_trajectories := mixed_new_win sample_size sW s }) := by
  obtain ⟨T, F, W⟩ := s
  have hq1 := sample_win_cases sample_size
  have hq2 := sample_final_cases sample_size
  have hnp : (if ur then sN T else T).length = T.length := by
    cases ur <;> simp [hN]
  simp only [residualQuota] at h
  by_cases hw : 0 < W.length <;> by_cases hf : 0 < F.length <;>
    simp only [get_mixed_trajectories, mixed_batch, mixed_new_final,
      mixed_new_win, residualQuota, hw, hf, if_true, if_false,
      eq_self_iff_true, List.length_take, List.length_append,
      List.length_nil, List.nil_append, List.append_nil, hW, hF, hnp,
      if_pos, if_neg, not_false_iff, ite_true, ite_false,
      List.take_nil, List.drop_nil] at h ⊢
  all_goals rw [if_pos (by omega)]
  all_goals {
    by_cases hT : 0 < T.length
    · simp [hT]
    · have hnil : (if ur = true then sN T else T) = [] :=
        List.eq_nil_of_length_eq_zero (by omega)
      simp [hT, hnil]
  }

/-- When the ordinary pool cannot cover the residual budget, the composed
batch is short and the length assertion of `get_mixed_trajectories` fires;
the win/final pool updates textually precede the assertion, so the error
state keeps them, while the ordinary pool keeps all its (possibly
shuffled) elements. -/
theorem get_mixed_err (sample_size : Nat)
    (sW sF sN : List α → List α) (ur : Bool) (s : LearnerPools α)
    (hW : ∀ l, (sW l).length = l.length)
    (hF : ∀ l, (sF l).length = l.length)
    (hN : ∀ l, (sN l).length = l.length)
    (h : s.trajectories.length < residualQuota sample_size
        s.win_trajectories.length s.final_trajectories.length) :
    get_mixed_trajectories sample_size sW sF sN ur s =
      .error
        { trajectories := if ur then sN s.trajectories else s.trajectories,
          final_trajectories := mixed_new_final sample_size sF s,
          win_trajectories := mixed_new_win sample_size sW s } := by
  obtain ⟨T, F, W⟩ := s
  have hq1 := sample_win_cases sample_size
  have hq2 := sample_final_cases sample_size
  have hnp : (if ur then sN T else T).length = T.length := by
    cases ur <;> simp [hN]
  simp only [residualQuota] at h
  by_cases hw : 0 < W.length <;> by_cases hf : 0 < F.length <;>
    simp only [get_mixed_trajectories, mixed_new_final,
      mixed_new_win, residualQuota, hw, hf, if_true, if_false,
      eq_self_iff_true, List.length_take, List.length_append,
      List.length_nil, List.nil_append, List.append_nil, hW, hF, hnp,
      if_pos, if_neg, not_false_iff, ite_true, ite_false,
      List.take_nil, List.drop_nil] at h ⊢
  all_goals rw [if_neg (by omega)]

/-- The win pool a `get_mixed_trajectories` call leaves behind is
`mixed_new_win`, whether the length assertion passed or fired (the update
at line 157-158 precedes the assertion at line 178). -/
theorem resultPools_win (sample_size : Nat)
    (sW sF sN : List α → List α) (ur : Bool) (s : LearnerPools α) :
    (resultPools (get_mixed_trajectories sample_size sW sF sN ur s)).win_trajectories
      = mixed_new_win sample_size sW s := by
  simp only [get_mixed_trajectories, mixed_new_win]
  repeat' split
  all_goals rfl

/-- As `resultPools_win`, for the final pool (update at line 169-170). -/
theorem resultPools_final (sample_size : Nat)
    (sW sF sN : List α → List α) (ur : Bool) (s : LearnerPools α) :
    (resultPools (get_mixed_trajectories sample_size sW sF sN ur s)).final_trajectories
      = mixed_new_final sample_size sF s := by
  simp only [get_mixed_trajectories, mixed_new_final]
  repeat' split
  all_goals rfl

/-- If the body of iteration `base + k` raises and every earlier body from
`base` on completes, the loop executes exactly the `k + 1` bodies up to and
including the raising one, provided the time budget allows reaching it. -/
theorem run_iters_exn (outcome : Nat → IterOutcome) :
    ∀ (k base fuel : Nat), outcome (base + k) = .exn →
      (∀ j, j < k → outcome (base + j) = .ok) → k < fuel →
      run_iters outcome base fuel = k + 1 := by
  intro k
  induction k with
  | zero =>
    intro base fuel hexn _ hfuel
    obtain ⟨f, rfl⟩ : ∃ f, fuel = f + 1 := ⟨fuel - 1, by omega⟩
    rw [Nat.add_zero] at hexn
    simp [run_iters, hexn]
  | succ k ih =>
    intro base fuel hexn hok hfuel
    obtain ⟨f, rfl⟩ : ∃ f, fuel = f + 1 := ⟨fuel - 1, by omega⟩
    have h0 : outcome base = .ok := by
      simpa using hok 0 (Nat.succ_pos k)
    have hrec : run_iters outcome (base + 1) f = k + 1 := by
      refine ih (base + 1) f ?_ ?_ (by omega)
      · rw [show base + 1 + k = base + (k + 1) by omega]
        exact hexn
      · intro j hj
        rw [show base + 1 + j = base + (j + 1) by omega]
        exact hok (j + 1) (by omega)
    simp [run_iters, h0, hrec]
    omega

/-- The constant-increment fold underlying the step-counter loops. -/
theorem foldl_add_const (k : Nat) :
    ∀ (n s : Nat), (List.range n).foldl (fun st _ => st + k) s = s + n * k := by
  intro n
  induction n with
  | zero => intro s; simp
  | succ n ih =>
    intro s
    rw [List.range_succ, List.foldl_append, ih]
    simp [Nat.succ_mul]
    omega

end LearnerProcess

namespace LearnerProcess

/-- `steps_after` in closed form. -/
theorem steps_after_eq (batch_size sequence_length steps m : Nat) :
    steps_after batch_size sequence_length steps m
      = steps + m * (batch_size * sequence_length) :=
  foldl_add_const (batch_size * sequence_length) m steps

/-- The nested epoch/mini-batch loops are `num_epochs * count_of_batches`
successive mini-batch counter updates. -/
theorem update_steps_eq (num_epochs count_of_batches batch_size
    sequence_length steps : Nat) :
    update_steps num_epochs count_of_batches batch_size sequence_length steps
      = steps + num_epochs * count_of_batches
          * (batch_size * sequence_length) := by
  unfold update_steps
  rw [List.foldl_ext _ (fun st (_ : Nat) =>
      st + count_of_batches * (batch_size * sequence_length)) steps
    (fun st _ _ => foldl_add_const (batch_size * sequence_length)
      count_of_batches st)]
  rw [foldl_add_const]
  ring

/-! ## Claims -/

/-- C1: the spec reserves a win quota of `max(1, floor(sample_size × 0.1))`
and a final quota of `max(1, floor(sample_size × 0.2))`, and even explains
the `max` as a deliberate "minimum-1 clamp"; the source computes
`min(1, ...)` (learner_process.py lines 138-139), capping both quotas at 1.
At `sample_size = 10` the code's final quota is `min(1, 2) = 1`, while the
spec's formula gives `max(1, 2) = 2`. -/
theorem c1_quota_is_min_not_max :
    sample_win 10 = 1 ∧ sample_final 10 = 1 ∧
      spec_win_quota 10 = 1 ∧ spec_final_quota 10 = 2 ∧
      sample_final 10 ≠ spec_final_quota 10 := by decide

/-- C2: in the spec's scenario (`sample_size = 10`, win pool of 5, final
pool of 3, ordinary pool of 100) the batch does have length exactly 10, but
the code's final quota is `min(1, 2) = 1` (not 2) and the residual drawn
from the ordinary pool is 8 (not 7).  Evaluated here with the
identity permutation standing for the two shuffles. -/
theorem c2_scenario_eval :
    resultBatchLength (get_mixed_trajectories 10 id id id false
        ⟨List.range 100, List.range 3, List.range 5⟩) = some 10 ∧
      sample_win 10 = 1 ∧ sample_final 10 = 1 ∧
      residualQuota 10 5 3 = 8 := by decide

/-- C3: whenever the ordinary pool holds at least
`sample_size = count_of_batches * batch_size` trajectories, uniform
sampling returns exactly the first `sample_size` of them and afterwards the
pool is exactly the old elements from index `sample_size` on, in their
original order. -/
theorem c3_uniform_sampling_fifo (sample_size : Nat) (pool : List α)
    (h : sample_size ≤ pool.length) :
    get_normal_trajectories sample_size pool =
      .ok (pool.take sample_size, pool.drop sample_size) :=
  get_normal_ok sample_size pool h

/-- Witness for C3 at `sample_size = 2`, pool `[1, 2, 3]`. -/
theorem c3_witness :
    2 ≤ [1, 2, 3].length ∧
      get_normal_trajectories 2 [1, 2, 3] = .ok ([1, 2], [3]) :=
  ⟨by decide, by rw [c3_uniform_sampling_fifo 2 [1, 2, 3] (by decide)]; rfl⟩

/-- C4: for any pool contents, as long as the ordinary pool can cover the
residual quota (what is left of `sample_size` after the win and final
contributions), mixed sampling succeeds with a batch of length exactly
`sample_size`; when the ordinary pool cannot cover it, the length
assertion fires (no shorter batch is ever returned). -/
theorem c4_mixed_batch_length (sample_size : Nat)
    (sW sF sN : List α → List α) (ur : Bool) (s : LearnerPools α)
    (hW : ∀ l, (sW l).length = l.length)
    (hF : ∀ l, (sF l).length = l.length)
    (hN : ∀ l, (sN l).length = l.length) :
    (residualQuota sample_size s.win_trajectories.length
          s.final_trajectories.length ≤ s.trajectories.length →
        resultBatchLength (get_mixed_trajectories sample_size sW sF sN ur s)
          = some sample_size) ∧
      (s.trajectories.length < residualQuota sample_size
          s.win_trajectories.length s.final_trajectories.length →
        resultBatchLength (get_mixed_trajectories sample_size sW sF sN ur s)
          = none) := by
  have hq1 := sample_win_cases sample_size
  have hq2 := sample_final_cases sample_size
  obtain ⟨T, F, W⟩ := s
  have hnp : (if ur then sN T else T).length = T.length := by
    cases ur <;> simp [hN]
  constructor
  · intro h
    rw [get_mixed_ok sample_size sW sF sN ur ⟨T, F, W⟩ hW hF hN h]
    simp only [resultBatchLength, Option.some.injEq]
    simp only [residualQuota] at h ⊢
    by_cases hw : 0 < W.length <;> by_cases hf : 0 < F.length <;>
      simp only [mixed_batch, residualQuota, hw, hf, if_true, if_false,
        ite_true, ite_false, List.length_append, List.length_take,
        List.length_nil, List.nil_append, List.append_nil, hW, hF, hnp]
        at h ⊢ <;>
      omega
  · intro h
    rw [get_mixed_err sample_size sW sF sN ur ⟨T, F, W⟩ hW hF hN h]
    rfl

/-- Witness for C4: `sample_size = 10`, ordinary pool of 20, final pool of
3, win pool of 5 (residual quota 8 is covered). -/
theorem c4_witness :
    resultBatchLength (get_mixed_trajectories 10 id id id false
        ⟨List.range 20, List.range 3, List.range 5⟩) = some 10 :=
  (c4_mixed_batch_length 10 id id id false
      ⟨List.range 20, List.range 3, List.range 5⟩
      (fun _ => rfl) (fun _ => rfl) (fun _ => rfl)).1 (by decide)

/-- C5 counterexample: the claim "every trajectory a sampling operation
places into the returned batch is removed from its pool by that same
operation" fails on mixed sampling.  With `sample_size = 10`, a win pool
holding the single trajectory `0` (so the in-place shuffle is necessarily
the identity), an empty final pool and 20 ordinary trajectories `1..20`,
the call succeeds, the batch contains `0`, yet `0` is still in the win
pool afterwards (the win pool is only trimmed when it holds more than 128
elements, learner_process.py line 157). -/
theorem c5_counterexample :
    resultBatchLength (get_mixed_trajectories 10 id id id false
        ⟨List.range' 1 20, ([] : List Nat), [0]⟩) = some 10 ∧
      0 ∈ resultBatch (get_mixed_trajectories 10 id id id false
        ⟨List.range' 1 20, ([] : List Nat), [0]⟩) ∧
      0 ∈ (resultPools (get_mixed_trajectories 10 id id id false
        ⟨List.range' 1 20, ([] : List Nat), [0]⟩)).win_trajectories := by
  decide

/-- C5 as amended: uniform sampling removes every returned trajectory from
the ordinary pool (batch ++ remaining pool = original pool, also vacuously
on assertion failure where nothing is returned); mixed sampling removes the
trajectories it draws from the ordinary pool, and removes the win (resp.
final) trajectories it draws only when that pool holds more than 128
(resp. 64) elements — which the hypotheses here assume; below those
thresholds the drawn win/final trajectories stay in their pools (see the
counterexample). -/
theorem c5_removal_amended (sample_size : Nat)
    (sW sF sN : List α → List α) (ur : Bool) (s : LearnerPools α)
    (pool : List α)
    (hW : ∀ l, (sW l).length = l.length)
    (hF : ∀ l, (sF l).length = l.length)
    (hN : ∀ l, (sN l).length = l.length)
    (hwin : 128 < s.win_trajectories.length)
    (hfin : 64 < s.final_trajectories.length)
    (hord : residualQuota sample_size s.win_trajectories.length
        s.final_trajectories.length ≤ s.trajectories.length) :
    resultNormalBatch (get_normal_trajectories sample_size pool)
        ++ resultNormalPool (get_normal_trajectories sample_size pool)
        = pool ∧
      resultBatch (get_mixed_trajectories sample_size sW sF sN ur s)
        = (sW s.win_trajectories).take (sample_win sample_size)
          ++ (sF s.final_trajectories).take (sample_final sample_size)
          ++ (if ur then sN s.trajectories else s.trajectories).take
              (residualQuota sample_size s.win_trajectories.length
                s.final_trajectories.length) ∧
      (sW s.win_trajectories).take (sample_win sample_size)
          ++ (resultPools (get_mixed_trajectories sample_size sW sF sN ur
              s)).win_trajectories
        = sW s.win_trajectories ∧
      (sF s.final_trajectories).take (sample_final sample_size)
          ++ (resultPools (get_mixed_trajectories sample_size sW sF sN ur
              s)).final_trajectories
        = sF s.final_trajectories ∧
      (if ur then sN s.trajectories else s.trajectories).take
          (residualQuota sample_size s.win_trajectories.length
            s.final_trajectories.length)
          ++ (resultPools (get_mixed_trajectories sample_size sW sF sN ur
              s)).trajectories
        = (if ur then sN s.trajectories else s.trajectories) := by
  have hw0 : 0 < s.win_trajectories.length := by omega
  have hf0 : 0 < s.final_trajectories.length := by omega
  refine ⟨?_, ?_, ?_, ?_, ?_⟩
  · rcases Nat.lt_or_ge pool.length sample_size with hp | hp
    · rw [get_normal_err sample_size pool hp]
      rfl
    · rw [get_normal_ok sample_size pool hp]
      simp [resultNormalBatch, resultNormalPool]
  · rw [get_mixed_ok sample_size sW sF sN ur s hW hF hN hord]
    simp [resultBatch, mixed_batch, hw0, hf0]
  · rw [get_mixed_ok sample_size sW sF sN ur s hW hF hN hord]
    simp only [resultPools, mixed_new_win, hw0, if_true, ite_true]
    rw [if_pos (by rw [hW]; omega)]
    exact List.take_append_drop _ _
  · rw [get_mixed_ok sample_size sW sF sN ur s hW hF hN hord]
    simp only [resultPools, mixed_new_final, hf0, if_true, ite_true]
    rw [if_pos (by rw [hF]; omega)]
    exact List.take_append_drop _ _
  · rw [get_mixed_ok sample_size sW sF sN ur s hW hF hN hord]
    simp only [resultPools]
    exact List.take_append_drop _ _

/-- Witness for C5 as amended: win pool of 129, final pool of 65,
ordinary pool of 20, `sample_size = 10`; the win quota taken into the
batch plus the trimmed win pool reassemble the whole win pool. -/
theorem c5_witness :
    (List.range 129).take (sample_win 10)
        ++ (resultPools (get_mixed_trajectories 10 id id id false
            ⟨List.range 20, List.range 65, List.range 129⟩)).win_trajectories
      = List.range 129 :=
  (c5_removal_amended 10 id id id false
      ⟨List.range 20, List.range 65, List.range 129⟩ [5]
      (fun _ => rfl) (fun _ => rfl) (fun _ => rfl)
      (by simp) (by simp)
      (by simp [residualQuota, sample_win, sample_final])).2.2.1

/-- C6: after a mixed-sampling pass, a win pool that held more than 128
elements is the shuffled pool with its head quota (the `sample_win` many
trajectories just taken) dropped, so its length shrinks by exactly that
count; a win pool of 128 or fewer elements keeps its length (it is at
most shuffled in place).  The same holds for the final pool with
threshold 64 and quota `sample_final`.  These updates precede the length
assertion in the source, so they hold whether or not it fires. -/
theorem c6_pool_trim (sample_size : Nat)
    (sW sF sN : List α → List α) (ur : Bool) (s : LearnerPools α)
    (hW : ∀ l, (sW l).length = l.length)
    (hF : ∀ l, (sF l).length = l.length) :
    (128 < s.win_trajectories.length →
        (resultPools (get_mixed_trajectories sample_size sW sF sN ur
              s)).win_trajectories
            = (sW s.win_trajectories).drop (sample_win sample_size) ∧
          (resultPools (get_mixed_trajectories sample_size sW sF sN ur
              s)).win_trajectories.length
            = s.win_trajectories.length - sample_win sample_size) ∧
      (s.win_trajectories.length ≤ 128 →
        (resultPools (get_mixed_trajectories sample_size sW sF sN ur
              s)).win_trajectories
            = (if 0 < s.win_trajectories.length then sW s.win_trajectories
               else s.win_trajectories) ∧
          (resultPools (get_mixed_trajectories sample_size sW sF sN ur
              s)).win_trajectories.length
            = s.win_trajectories.length) ∧
      (64 < s.final_trajectories.length →
        (resultPools (get_mixed_trajectories sample_size sW sF sN ur
              s)).final_trajectories
            = (sF s.final_trajectories).drop (sample_final sample_size) ∧
          (resultPools (get_mixed_trajectories sample_size sW sF sN ur
              s)).final_trajectories.length
            = s.final_trajectories.length - sample_final sample_size) ∧
      (s.final_trajectories.length ≤ 64 →
        (resultPools (get_mixed_trajectories sample_size sW sF sN ur
              s)).final_trajectories
            = (if 0 < s.final_trajectories.length then sF s.final_trajectories
               else s.final_trajectories) ∧
          (resultPools (get_mixed_trajectories sample_size sW sF sN ur
              s)).final_trajectories.length
            = s.final_trajectories.length) := by
  rw [resultPools_win sample_size sW sF sN ur s,
    resultPools_final sample_size sW sF sN ur s]
  refine ⟨?_, ?_, ?_, ?_⟩
  · intro h
    have h0 : 0 < s.win_trajectories.length := by omega
    simp only [mixed_new_win, h0, ite_true, if_true]
    rw [if_pos (by rw [hW]; omega)]
    simp [List.length_drop, hW]
  · intro h
    by_cases h0 : 0 < s.win_trajectories.length
    · simp only [mixed_new_win, h0, ite_true, if_true]
      rw [if_neg (by rw [hW]; omega)]
      simp [hW]
    · simp [mixed_new_win, h0]
  · intro h
    have h0 : 0 < s.final_trajectories.length := by omega
    simp only [mixed_new_final, h0, ite_true, if_true]
    rw [if_pos (by rw [hF]; omega)]
    simp [List.length_drop, hF]
  · intro h
    by_cases h0 : 0 < s.final_trajectories.length
    · simp only [mixed_new_final, h0, ite_true, if_true]
      rw [if_neg (by rw [hF]; omega)]
      simp [hF]
    · simp [mixed_new_final, h0]

/-- Witness for C6: win pool of 129 elements trimmed to 128, final pool of
3 elements left at length 3 (`sample_size = 10`). -/
theorem c6_witness :
    (resultPools (get_mixed_trajectories 10 id id id false
        ⟨List.range 20, List.range 3, List.range 129⟩)).win_trajectories
        = (List.range 129).drop (sample_win 10) ∧
      (resultPools (get_mixed_trajectories 10 id id id false
        ⟨List.range 20, List.range 3, List.range 129⟩)).final_trajectories.length
        = 3 :=
  ⟨((c6_pool_trim 10 id id id false
        ⟨List.range 20, List.range 3, List.range 129⟩
        (fun _ => rfl) (fun _ => rfl)).1 (by simp)).1,
    ((c6_pool_trim 10 id id id false
        ⟨List.range 20, List.range 3, List.range 129⟩
        (fun _ => rfl) (fun _ => rfl)).2.2.2 (by simp)).2.trans (by simp)⟩

/-- C7: with training enabled, the step counter grows by exactly
`batch_size * sequence_length` after each processed mini-batch
(`steps_after` counts the mini-batch bodies executed so far), the nested
loops are `num_epochs * count_of_batches` such mini-batch updates, and a
complete `update_parameters` call that finishes all epochs grows the
counter by exactly
`num_epochs * count_of_batches * batch_size * sequence_length` (and writes
a checkpoint, consuming `count_of_batches * batch_size` ordinary
trajectories). -/
theorem c7_step_counter (num_epochs count_of_batches batch_size
    sequence_length m : Nat) (s : LearnerState α)
    (h : count_of_batches * batch_size ≤ s.pools.trajectories.length) :
    steps_after batch_size sequence_length s.steps (m + 1)
        = steps_after batch_size sequence_length s.steps m
          + batch_size * sequence_length ∧
      update_steps num_epochs count_of_batches batch_size sequence_length
          s.steps
        = steps_after batch_size sequence_length s.steps
            (num_epochs * count_of_batches) ∧
      update_parameters true num_epochs count_of_batches batch_size
          sequence_length s
        = .ok { pools := { s.pools with
                  trajectories := s.pools.trajectories.drop
                    (count_of_batches * batch_size) },
                steps := s.steps + num_epochs * count_of_batches
                  * (batch_size * sequence_length),
                checkpoint_saved := true } := by
  refine ⟨?_, ?_, ?_⟩
  · rw [steps_after_eq, steps_after_eq]
    ring
  · rw [steps_after_eq, update_steps_eq]
  · simp only [update_parameters, Bool.true_eq_false, if_false,
      get_normal_ok _ _ h, update_steps_eq]

/-- Witness for C7: two epochs of two mini-batches of size 2 with sequence
length 3 advance the counter from 7 to 31 and drain the 4-element pool. -/
theorem c7_witness :
    update_parameters true 2 2 2 3
        (⟨⟨[10, 11, 12, 13], [], []⟩, 7, false⟩ : LearnerState Nat)
      = .ok ⟨⟨[], [], []⟩, 31, true⟩ :=
  (c7_step_counter 2 2 2 3 0
      (⟨⟨[10, 11, 12, 13], [], []⟩, 7, false⟩ : LearnerState Nat)
      (by decide)).2.2

/-- C9: the run loop's `finally` clears `is_running` on every exit path,
and if iteration `k`'s body raises while every earlier body completed (and
the time budget reaches `k`), the loop executes exactly the `k + 1` bodies
up to and including the raising one — no retry and no further
iterations. -/
theorem c9_run_loop (fuel k : Nat) (outcome : Nat → IterOutcome) :
    (run fuel outcome).is_running = false ∧
      (outcome k = .exn → (∀ j, j < k → outcome j = .ok) → k < fuel →
        (run fuel outcome).iterations_run = k + 1) := by
  constructor
  · rfl
  · intro hexn hok hfuel
    show run_iters outcome 0 fuel = k + 1
    exact run_iters_exn outcome k 0 fuel (by simpa using hexn)
      (fun j hj => by simpa using hok j hj) hfuel

/-- Witness for C9: with a budget of 5 iterations and the body raising at
iteration 2, the loop runs exactly 3 iterations and ends not running. -/
theorem c9_witness :
    (run 5 (fun i => if i = 2 then IterOutcome.exn
        else IterOutcome.ok)).is_running = false ∧
      (run 5 (fun i => if i = 2 then IterOutcome.exn
        else IterOutcome.ok)).iterations_run = 3 :=
  ⟨(c9_run_loop 5 2 (fun i => if i = 2 then IterOutcome.exn
      else IterOutcome.ok)).1,
    (c9_run_loop 5 2 (fun i => if i = 2 then IterOutcome.exn
      else IterOutcome.ok)).2 (by decide) (by decide) (by decide)⟩

/-- C8: with the training-enabled flag false, `update_parameters` returns
immediately: the pools, the step counter and the checkpoint flag of the
resulting state are those of the input state, unchanged. -/
theorem c8_update_disabled_noop (num_epochs count_of_batches batch_size
    sequence_length : Nat) (s : LearnerState α) :
    update_parameters false num_epochs count_of_batches batch_size
      sequence_length s = .ok s := rfl

/-- C10: whenever the ordinary pool holds fewer than `sample_size`
trajectories, uniform sampling fails its length assertion, and since that
assertion (line 125) textually precedes the pool update (lines 128-129) the
pool at the moment of failure is exactly the original pool. -/
theorem c10_normal_error_atomic (sample_size : Nat) (pool : List α)
    (h : pool.length < sample_size) :
    get_normal_trajectories sample_size pool = .error pool :=
  get_normal_err sample_size pool h

/-- Witness for C10 at `sample_size = 3`, pool `[7]`. -/
theorem c10_witness :
    [7].length < 3 ∧ get_normal_trajectories 3 [7] = .error [7] :=
  ⟨by decide, c10_normal_error_atomic 3 [7] (by decide)⟩

end LearnerProcess
